import Mathlib

/-!
Verification of `create-odoo-lxc.py` (C3i-Servicios-Informaticos/c3i-lxc-odoo-deploy).

The script is an interactive provisioner: it prompts the operator, shells out to
Proxmox CLI tools, generates an install script and a netplan file by string
templating, and polls for container readiness.  Below we embed the pure parts
of the script (string templates, validation, the polling control flow, the
helper functions `run_command`, `ask`, `check_custom_modules`, and the
storage-percentage formatting of `show_storages`) as Lean definitions, and
prove the spec's claims about them.  Effects (subprocess results, the
filesystem, the operator's keyboard input) are modelled as explicit
parameters.
-/

/-- Python's `str.strip()` (restricted to ASCII whitespace): drop leading and
trailing whitespace characters. -/
def pyStrip (s : String) : String :=
  String.mk (((s.data.dropWhile Char.isWhitespace).reverse.dropWhile Char.isWhitespace).reverse)

/-- Outcome of one `subprocess.run(..., check=True)` call: the external command
either succeeds (captured stdout/stderr) or raises `CalledProcessError`. -/
inductive CmdOutcome where
  | ok (stdout stderr : String)
  | err (stdout stderr : String)
deriving DecidableEq

/-- Observable result of `run_command`: either a value is returned to the
caller, or the whole process terminates via `error_exit` (printing an error
line on stderr and calling `sys.exit(1)`). -/
inductive RunOutcome where
  | returned (r : Option String)
  | exited (code : Nat) (msg : String)
deriving DecidableEq

/-- Embedding of `run_command(command, exit_on_error, show_output)` from
`create-odoo-lxc.py` lines 29-36.  The behaviour of the external command is
passed in as `outcome`.  On success the stripped stdout is returned; on
failure, with `exit_on_error` the process exits with code 1 after printing the
error line, otherwise `None` is returned. -/
def run_command (outcome : CmdOutcome) (command : String) (exit_on_error : Bool) : RunOutcome :=
  match outcome with
  | CmdOutcome.ok stdout _ => RunOutcome.returned (some (pyStrip stdout))
  | CmdOutcome.err _ stderr =>
      if exit_on_error then
        RunOutcome.exited 1 ("Error: " ++ command ++ "\nSalida: " ++ stderr)
      else
        RunOutcome.returned none

/-- C1: for every shell command, `run_command` with `exit_on_error = true`
either returns the command's stripped stdout (success) or prints an error line
and terminates the process (failure); with `exit_on_error = false` a failure
returns `None` instead of terminating. -/
theorem run_command_spec (command : String) (o : CmdOutcome) :
    ((∃ out err, o = CmdOutcome.ok out err ∧
        run_command o command true = RunOutcome.returned (some (pyStrip out))) ∨
     (∃ out err, o = CmdOutcome.err out err ∧
        run_command o command true =
          RunOutcome.exited 1 ("Error: " ++ command ++ "\nSalida: " ++ err))) ∧
    (∀ out err, o = CmdOutcome.err out err →
        run_command o command false = RunOutcome.returned none) := by
  constructor
  · cases o with
    | ok out err => exact Or.inl ⟨out, err, rfl, rfl⟩
    | err out err => exact Or.inr ⟨out, err, rfl, rfl⟩
  · intro out err h
    subst h
    rfl

/-- Witness for C1 at a concrete failing command. -/
theorem run_command_spec_witness :
    run_command (CmdOutcome.err "" "boom") "pct create" false = RunOutcome.returned none :=
  (run_command_spec "pct create" (CmdOutcome.err "" "boom")).2 "" "boom" rfl

/-! ### Substring machinery for the generated-text claims -/

/-- Boolean prefix test on character lists. -/
def isPrefB : List Char → List Char → Bool
  | [], _ => true
  | _ :: _, [] => false
  | p :: ps, c :: cs => p == c && isPrefB ps cs

/-- Boolean substring test on character lists: does `p` occur contiguously in
`s`? -/
def subB (p : List Char) : List Char → Bool
  | [] => isPrefB p []
  | c :: cs => isPrefB p (c :: cs) || subB p cs

/-- Does the string `pat` occur contiguously inside `s`? -/
def strContains (s pat : String) : Bool := subB pat.data s.data

theorem isPrefB_iff (p s : List Char) : isPrefB p s = true ↔ ∃ t, s = p ++ t := by
  induction p generalizing s with
  | nil => simp [isPrefB]
  | cons a ps ih =>
      cases s with
      | nil => simp [isPrefB]
      | cons c cs =>
          simp only [isPrefB, Bool.and_eq_true, beq_iff_eq, ih, List.cons_append,
            List.cons.injEq]
          constructor
          · rintro ⟨rfl, t, rfl⟩; exact ⟨t, rfl, rfl⟩
          · rintro ⟨t, rfl, rfl⟩; exact ⟨rfl, t, rfl⟩

theorem subB_iff (p s : List Char) : subB p s = true ↔ ∃ a b, s = a ++ p ++ b := by
  induction s with
  | nil =>
      simp only [subB, isPrefB_iff]
      constructor
      · rintro ⟨t, ht⟩; exact ⟨[], t, ht⟩
      · rintro ⟨a, b, h⟩
        rcases List.append_eq_nil.mp (List.append_eq_nil.mp h.symm).1 with ⟨_, h2⟩
        exact ⟨b, by simp_all⟩
  | cons c cs ih =>
      simp only [subB, Bool.or_eq_true, isPrefB_iff, ih]
      constructor
      · rintro (⟨t, ht⟩ | ⟨a, b, h⟩)
        · exact ⟨[], t, by simpa using ht⟩
        · exact ⟨c :: a, b, by simp [h]⟩
      · rintro ⟨a, b, h⟩
        cases a with
        | nil => exact Or.inl ⟨b, by simpa using h⟩
        | cons x xs =>
            right
            refine ⟨xs, b, ?_⟩
            have h' : c = x ∧ cs = xs ++ p ++ b := by simpa using h
            simpa using h'.2

theorem string_eq_of_data (s t : String) (h : s.data = t.data) : s = t := by
  cases s; cases t; exact congrArg String.mk h

theorem strAppend_assoc (a b c : String) : (a ++ b) ++ c = a ++ (b ++ c) := by
  apply string_eq_of_data
  simp [String.data_append, List.append_assoc]

theorem strContains_iff (s p : String) :
    strContains s p = true ↔ ∃ a b, s = (a ++ p) ++ b := by
  unfold strContains
  rw [subB_iff]
  constructor
  · rintro ⟨a, b, h⟩
    refine ⟨String.mk a, String.mk b, ?_⟩
    apply string_eq_of_data
    simpa [String.data_append] using h
  · rintro ⟨a, b, rfl⟩
    exact ⟨a.data, b.data, by simp [String.data_append]⟩

theorem strContains_here (p t : String) : strContains (p ++ t) p = true :=
  (strContains_iff _ _).mpr ⟨"", t, by apply string_eq_of_data; simp [String.data_append]⟩

theorem strContains_append_right (x s p : String) (h : strContains s p = true) :
    strContains (x ++ s) p = true := by
  rcases (strContains_iff s p).mp h with ⟨a, b, rfl⟩
  refine (strContains_iff _ _).mpr ⟨x ++ a, b, ?_⟩
  apply string_eq_of_data
  simp [String.data_append, List.append_assoc]

/-- `InOrd ps s` holds when the strings in `ps` occur in `s`, contiguously,
pairwise disjointly, and in the listed order (with arbitrary gaps). -/
inductive InOrd : List String → String → Prop where
  | nil (s : String) : InOrd [] s
  | keep (x : String) {ps : List String} {s : String} :
      InOrd ps s → InOrd ps (x ++ s)
  | found (p : String) {ps : List String} {b : String} :
      InOrd ps b → InOrd (p :: ps) (p ++ b)

/-! ### Storage display (`show_storages`, lines 65-84) -/

/-- A value read from a storage descriptor field: Proxmox returns numbers for
`avail` / `total` / `used`, and the script substitutes the string `'N/A'` when
the field is missing (`info.get('used', 'N/A')`).  Numbers are modelled as
exact rationals. -/
inductive PVal where
  | num (q : ℚ)
  | str (s : String)
deriving DecidableEq

/-- Round to the nearest integer, ties to even (the rounding used by Python's
`format(x, '.2f')`). -/
def roundHalfEven (q : ℚ) : ℤ :=
  let f := Rat.floor q
  let r := q - (f : ℚ)
  if r < 1/2 then f
  else if (1/2 : ℚ) < r then f + 1
  else if f % 2 = 0 then f else f + 1

/-- Python's `f"{q:.2f}"`: the value rounded to two decimal places (half to
even) and rendered with exactly two fractional digits. -/
def format2f (q : ℚ) : String :=
  let n := roundHalfEven (q * 100)
  let m := n.natAbs
  (if n < 0 then "-" else "") ++ Nat.repr (m / 100) ++ "." ++
    (if m % 100 < 10 then "0" ++ Nat.repr (m % 100) else Nat.repr (m % 100))

/-- Embedding of the `used_percent` expression of `show_storages` (line 76):
`f"{used*100/total:.2f}%" if isinstance(used, (int, float)) and
isinstance(total, (int, float)) and total > 0 else "N/A"`. -/
def used_percent (used total : PVal) : String :=
  match used, total with
  | PVal.num u, PVal.num t =>
      if 0 < t then format2f (u * 100 / t) ++ "%" else "N/A"
  | _, _ => "N/A"

theorem format2f_percent_ne_NA (q : ℚ) : format2f q ++ "%" ≠ "N/A" := by
  intro h
  have hd := congrArg (fun s => s.data.getLast?) h
  simp only [String.data_append] at hd
  have hpct : (((format2f q).data ++ ("%" : String).data)).getLast? = some '%' := by
    have : ("%" : String).data = ['%'] := rfl
    rw [this, List.getLast?_concat]
  rw [hpct] at hd
  simp at hd

/-- C3: the used-space percentage is `used*100/total` formatted to two decimal
places exactly when both fields are numeric and `total > 0`; in every other
case (a missing field, or `total = 0`) the display is the string `"N/A"` and
the division is never reached. -/
theorem used_percent_spec (u t : PVal) :
    (used_percent u t = "N/A" ↔ ¬ ∃ qu qt, u = PVal.num qu ∧ t = PVal.num qt ∧ 0 < qt) ∧
    (∀ qu qt, u = PVal.num qu → t = PVal.num qt → 0 < qt →
      used_percent u t = format2f (qu * 100 / qt) ++ "%") := by
  constructor
  · cases u with
    | num qu =>
        cases t with
        | num qt =>
            by_cases h : 0 < qt
            · simp only [used_percent, if_pos h]
              simp [format2f_percent_ne_NA, h]
            · simp only [used_percent, if_neg h]
              simp [h]
        | str s => simp [used_percent]
    | str s =>
        cases t with
        | num qt => simp [used_percent]
        | str s2 => simp [used_percent]
  · intro qu qt hu ht hpos
    subst hu; subst ht
    simp [used_percent, if_pos hpos]

/-- Witness for C3: a numeric descriptor with positive total, and the
zero-total edge case. -/
theorem used_percent_spec_witness :
    used_percent (PVal.num 50) (PVal.num 200) = format2f (50 * 100 / 200) ++ "%" ∧
    used_percent (PVal.num 5) (PVal.num 0) = "N/A" := by
  constructor
  · exact (used_percent_spec (PVal.num 50) (PVal.num 200)).2 50 200 rfl rfl (by decide)
  · refine (used_percent_spec (PVal.num 5) (PVal.num 0)).1.mpr ?_
    rintro ⟨qu, qt, hqu, hqt, hlt⟩
    injection hqt with h
    subst h
    exact absurd hlt (by decide)

/-! ### Input validation (`ask`, lines 20-24, and the `vm_id` pattern, line 302) -/

/-- The regex character class `[0-9]` as a code-point test. -/
def isDigit09 (c : Char) : Bool := decide (48 ≤ c.toNat) && decide (c.toNat ≤ 57)

/-- The regex character class `[1-9]` as a code-point test. -/
def isDigit19 (c : Char) : Bool := decide (49 ≤ c.toNat) && decide (c.toNat ≤ 57)

/-- Embedding of `re.match(r"^[1-9][0-9]{2}$", s)` (the `vm_id` validation
pattern, line 302).  `re.match` anchors at the start; in Python `$` (without
`re.MULTILINE`) matches at the end of the string or just before one trailing
newline, hence the four-character arm. -/
def vm_id_ok (s : String) : Bool :=
  match s.data with
  | [a, b, c] => isDigit19 a && isDigit09 b && isDigit09 c
  | [a, b, c, d] => isDigit19 a && isDigit09 b && isDigit09 c && (d == '\n')
  | _ => false

/-- The numeric value of a decimal digit string (most significant digit
first). -/
def decValue (s : String) : Nat :=
  s.data.foldl (fun acc c => 10 * acc + (c.toNat - 48)) 0

/-- C4: on the strings the script actually validates (user input is
whitespace-stripped before validation, so it never ends in a newline), the
`vm_id` pattern accepts exactly the three-digit decimal numerals whose value
lies in 100..999. -/
theorem vm_id_spec (s : String) (h : s.data.getLast? ≠ some '\n') :
    vm_id_ok s = true ↔
      (s.data.length = 3 ∧ s.data.all isDigit09 = true ∧
        100 ≤ decValue s ∧ decValue s ≤ 999) := by
  rcases hl : s.data with _ | ⟨a, _ | ⟨b, _ | ⟨c, _ | ⟨d, rest⟩⟩⟩⟩
  · simp [vm_id_ok, hl]
  · simp [vm_id_ok, hl]
  · simp [vm_id_ok, hl]
  · simp only [vm_id_ok, hl, decValue, isDigit09, isDigit19, List.all_cons, List.all_nil,
      List.foldl_cons, List.foldl_nil, List.length_cons, List.length_nil, Bool.and_eq_true,
      decide_eq_true_iff, Bool.and_true, true_and, and_true]
    omega
  · rcases rest with _ | ⟨e, rest⟩
    · rw [hl] at h
      have hd : d ≠ '\n' := by
        simpa [List.getLast?] using h
      simp only [vm_id_ok, hl, List.length_cons, List.length_nil]
      constructor
      · intro hb
        simp only [Bool.and_eq_true, beq_iff_eq] at hb
        exact absurd hb.2 hd
      · intro hb
        omega
    · simp only [vm_id_ok, hl, List.length_cons]
      constructor
      · intro hb; exact absurd hb (by simp)
      · intro hb; omega

/-- Witness for C4: `"123"` is accepted; the boundary strings `"099"`,
`"1000"` and `"99"` are rejected. -/
theorem vm_id_spec_witness :
    vm_id_ok "123" = true ∧ vm_id_ok "099" = false ∧
    vm_id_ok "1000" = false ∧ vm_id_ok "99" = false := by
  refine ⟨(vm_id_spec "123" (by decide)).mpr (by decide), ?_, ?_, ?_⟩
  · rcases hb : vm_id_ok "099" with _ | _
    · rfl
    · exact absurd ((vm_id_spec "099" (by decide)).mp hb) (by decide)
  · rcases hb : vm_id_ok "1000" with _ | _
    · rfl
    · exact absurd ((vm_id_spec "1000" (by decide)).mp hb) (by decide)
  · rcases hb : vm_id_ok "99" with _ | _
    · rfl
    · exact absurd ((vm_id_spec "99" (by decide)).mp hb) (by decide)

/-- One round of `ask` (lines 20-24): read a raw entry, strip it, replace an
empty result by the default, then validate.  `some s` means the round returns
`s`; `none` means the round warns and the loop continues. -/
def askStep (default : String) (validation : Option (String → Bool)) (raw : String) :
    Option String :=
  let user_input := if pyStrip raw = "" then default else pyStrip raw
  match validation with
  | none => some user_input
  | some v => if v user_input then some user_input else none

/-- The `ask` loop over a stream of raw entries: the first validated entry is
returned; `none` means the stream was consumed without any entry validating
(the Python loop would still be running). -/
def ask (default : String) (validation : Option (String → Bool)) :
    List String → Option String
  | [] => none
  | r :: rs =>
      match askStep default validation r with
      | some s => some s
      | none => ask default validation rs

theorem askStep_sound (d : String) (v : String → Bool) (r s : String)
    (h : askStep d (some v) r = some s) : v s = true := by
  unfold askStep at h
  by_cases hv : v (if pyStrip r = "" then d else pyStrip r) = true
  · simp only [hv, if_true, Option.some.injEq] at h
    rw [← h]
    exact hv
  · simp only [Bool.not_eq_true] at hv
    simp [hv] at h

/-- C9: with a validation pattern present, every string `ask` returns
satisfies the pattern; an empty or whitespace-only entry is replaced by the
default before validation (so such a round returns the default exactly when
the default validates); and if the default does not validate, a stream of
empty entries never terminates the loop. -/
theorem ask_spec (d : String) (v : String → Bool) (ins : List String) :
    (∀ s, ask d (some v) ins = some s → v s = true) ∧
    (∀ r, pyStrip r = "" → askStep d (some v) r = if v d then some d else none) ∧
    (v d = false → (∀ r, r ∈ ins → pyStrip r = "") → ask d (some v) ins = none) := by
  refine ⟨?_, ?_, ?_⟩
  · induction ins with
    | nil => intro s h; simp [ask] at h
    | cons r rs ih =>
        intro s h
        rw [ask] at h
        rcases hst : askStep d (some v) r with _ | val
        · rw [hst] at h
          exact ih s h
        · rw [hst] at h
          obtain rfl : val = s := by simpa using h
          exact askStep_sound d v r val hst
  · intro r hr
    simp [askStep, hr]
  · intro hd hall
    induction ins with
    | nil => rfl
    | cons r rs ih =>
        rw [ask]
        have hst : askStep d (some v) r = none := by
          simp [askStep, hall r (List.mem_cons_self r rs), hd]
        rw [hst]
        exact ih (fun x hx => hall x (List.mem_cons_of_mem r hx))

/-- Witness for C9: with validator "nonempty string of lowercase letters",
default `"odoo18"` validates on a blank entry; with the never-matching
validator, blank entries loop. -/
theorem ask_spec_witness :
    ask "odoo18" (some (fun s => decide (s = "odoo18"))) ["   "] = some "odoo18" ∧
    ask "x" (some (fun _ => false)) ["", " ", "\t"] = none := by
  constructor
  · have h := (ask_spec "odoo18" (fun s => decide (s = "odoo18")) ["   "]).2.1 "   " (by decide)
    rw [ask, h]
    decide
  · exact (ask_spec "x" (fun _ => false) ["", " ", "\t"]).2.2 rfl (by decide)

/-! ### Custom module discovery (`check_custom_modules`, lines 87-101) -/

/-- The filesystem observations `check_custom_modules` makes (`os.path.exists`,
`os.path.isdir`, `os.listdir`). -/
structure FSModel where
  pathExists : String → Bool
  isDir : String → Bool
  listDir : String → List String

/-- `os.path.join` for the relative components used here. -/
def joinPath (a b : String) : String := a ++ "/" ++ b

/-- Embedding of `check_custom_modules()` (lines 87-101): under
`<scriptDir>/modules`, keep the entries that are directories containing a
`__manifest__.py`; if the directory is missing return the empty list.  Returns
the pair `(modules, modules_dir)` like the source. -/
def check_custom_modules (fs : FSModel) (scriptDir : String) : List String × String :=
  let modulesDir := joinPath scriptDir "modules"
  if fs.pathExists modulesDir then
    ((fs.listDir modulesDir).filter (fun item =>
        fs.isDir (joinPath modulesDir item) &&
        fs.pathExists (joinPath (joinPath modulesDir item) "__manifest__.py")),
      modulesDir)
  else ([], modulesDir)

/-- C10: the returned list holds exactly the listed entries that are
directories with a `__manifest__.py` inside; a missing `modules` directory
yields the empty list. -/
theorem check_custom_modules_spec (fs : FSModel) (scriptDir : String) :
    (fs.pathExists (joinPath scriptDir "modules") = false →
      (check_custom_modules fs scriptDir).1 = []) ∧
    (∀ item,
      item ∈ (check_custom_modules fs scriptDir).1 ↔
        fs.pathExists (joinPath scriptDir "modules") = true ∧
        item ∈ fs.listDir (joinPath scriptDir "modules") ∧
        fs.isDir (joinPath (joinPath scriptDir "modules") item) = true ∧
        fs.pathExists
          (joinPath (joinPath (joinPath scriptDir "modules") item) "__manifest__.py") = true) := by
  by_cases h : fs.pathExists (joinPath scriptDir "modules") = true
  · constructor
    · intro hfalse
      rw [h] at hfalse
      exact absurd hfalse (by simp)
    · intro item
      simp [check_custom_modules, h, List.mem_filter]
  · have h' : fs.pathExists (joinPath scriptDir "modules") = false := by
      simpa using h
    constructor
    · intro _
      simp [check_custom_modules, h']
    · intro item
      simp [check_custom_modules, h']

/-- A small concrete filesystem: `/app/modules` holds a module directory
`good` (with manifest), a manifest-less directory `bad`, and a plain file. -/
def fsDemo : FSModel where
  pathExists := fun p =>
    p == "/app/modules" || p == "/app/modules/good" || p == "/app/modules/bad" ||
    p == "/app/modules/file.txt" || p == "/app/modules/good/__manifest__.py"
  isDir := fun p =>
    p == "/app/modules" || p == "/app/modules/good" || p == "/app/modules/bad"
  listDir := fun p =>
    if p == "/app/modules" then ["good", "bad", "file.txt"] else []

/-- Witness for C10 on `fsDemo`. -/
theorem check_custom_modules_spec_witness :
    "good" ∈ (check_custom_modules fsDemo "/app").1 ∧
    "bad" ∉ (check_custom_modules fsDemo "/app").1 ∧
    (check_custom_modules fsDemo "/nope").1 = [] := by
  refine ⟨?_, ?_, ?_⟩
  · exact ((check_custom_modules_spec fsDemo "/app").2 "good").mpr (by decide)
  · intro hmem
    exact absurd (((check_custom_modules_spec fsDemo "/app").2 "bad").mp hmem) (by decide)
  · exact (check_custom_modules_spec fsDemo "/nope").1 (by decide)

/-! ### Readiness polling loop (`main`, lines 462-489) -/

/-- Result of the polling loop: the final value of the Python loop variable
`attempt`, whether the loop was left via `break`, the number of status
queries issued, and the total seconds slept (one `time.sleep(5)` at the top
of every iteration). -/
structure PollOut where
  finalAttempt : Nat
  broke : Bool
  queries : Nat
  sleepSeconds : Nat
deriving DecidableEq

/-- The success condition of one polling iteration: the status query (parsed
from the JSON the non-fatal `pvesh` call returned; `none` covers a failed or
empty query and a missing `status` field) reports `"running"`, and the
non-fatal ping probe inside the container returns a non-null result. -/
def attemptSucceeds (statusAt : Nat → Option String) (pingAt : Nat → Bool) (k : Nat) : Bool :=
  (statusAt k == some "running") && pingAt k

/-- The loop `for attempt in range(30): time.sleep(5); ...; break on success`,
with `i` the next attempt index and the fuel counting the remaining
iterations.  On exhaustion the loop variable keeps its last value `i - 1`. -/
def pollGo (s : Nat → Bool) (i : Nat) : Nat → PollOut
  | 0 => ⟨i - 1, false, 0, 0⟩
  | fuel + 1 =>
      if s i then ⟨i, true, 1, 5⟩
      else
        let r := pollGo s (i + 1) fuel
        ⟨r.finalAttempt, r.broke, r.queries + 1, r.sleepSeconds + 5⟩

/-- The readiness poller of `main` (lines 466-484): 30 attempts starting at 0. -/
def pollLoop (statusAt : Nat → Option String) (pingAt : Nat → Bool) : PollOut :=
  pollGo (attemptSucceeds statusAt pingAt) 0 30

/-- The warning guard after the loop (line 486): `if attempt >= 29`. -/
def pollWarning (r : PollOut) : Bool := decide (29 ≤ r.finalAttempt)

theorem pollGo_queries_le (s : Nat → Bool) (fuel i : Nat) :
    (pollGo s i fuel).queries ≤ fuel := by
  induction fuel generalizing i with
  | zero => simp [pollGo]
  | succ f ih =>
      rw [pollGo]
      by_cases h : s i = true
      · simp [h]
      · simp only [Bool.not_eq_true] at h
        simp only [h, Bool.false_eq_true, if_false]
        exact Nat.succ_le_succ (ih (i + 1))

theorem pollGo_sleep_eq (s : Nat → Bool) (fuel i : Nat) :
    (pollGo s i fuel).sleepSeconds = 5 * (pollGo s i fuel).queries := by
  induction fuel generalizing i with
  | zero => simp [pollGo]
  | succ f ih =>
      rw [pollGo]
      by_cases h : s i = true
      · simp [h]
      · simp only [Bool.not_eq_true] at h
        simp only [h, Bool.false_eq_true, if_false]
        have := ih (i + 1)
        simp only [this]
        ring

theorem pollGo_first_success (s : Nat → Bool) (fuel i k : Nat) (hk : k < fuel)
    (hs : s (i + k) = true) (hmin : ∀ j, j < k → s (i + j) = false) :
    pollGo s i fuel = ⟨i + k, true, k + 1, 5 * (k + 1)⟩ := by
  induction fuel generalizing i k with
  | zero => omega
  | succ f ih =>
      rw [pollGo]
      cases k with
      | zero =>
          simp only [Nat.add_zero] at hs
          simp [hs]
      | succ k' =>
          have h0 : s i = false := by simpa using hmin 0 (Nat.succ_pos k')
          simp only [h0, Bool.false_eq_true, if_false]
          have hs' : s (i + 1 + k') = true := by
            have : i + 1 + k' = i + (k' + 1) := by omega
            rw [this]; exact hs
          have hmin' : ∀ j, j < k' → s (i + 1 + j) = false := by
            intro j hj
            have : i + 1 + j = i + (j + 1) := by omega
            rw [this]
            exact hmin (j + 1) (by omega)
          rw [ih (i + 1) k' (by omega) hs' hmin']
          simp only [PollOut.mk.injEq, and_true, true_and, eq_self_iff_true]
          omega

theorem pollGo_no_success (s : Nat → Bool) (fuel i : Nat)
    (h : ∀ j, j < fuel → s (i + j) = false) :
    pollGo s i fuel = ⟨i + fuel - 1, false, fuel, 5 * fuel⟩ := by
  induction fuel generalizing i with
  | zero => simp [pollGo]
  | succ f ih =>
      rw [pollGo]
      have h0 : s i = false := by simpa using h 0 (Nat.succ_pos f)
      simp only [h0, Bool.false_eq_true, if_false]
      have hrest : ∀ j, j < f → s (i + 1 + j) = false := by
        intro j hj
        have : i + 1 + j = i + (j + 1) := by omega
        rw [this]
        exact h (j + 1) (by omega)
      rw [ih (i + 1) hrest]
      simp only [PollOut.mk.injEq, and_true, true_and, eq_self_iff_true]
      omega

/-- C6: the poller issues at most 30 status queries, sleeps a fixed 5 seconds
before each of them, and leaves the loop via `break` at the first attempt at
which the container reports `"running"` and the ping probe succeeds. -/
theorem poll_loop_spec (statusAt : Nat → Option String) (pingAt : Nat → Bool) :
    (pollLoop statusAt pingAt).queries ≤ 30 ∧
    (pollLoop statusAt pingAt).sleepSeconds = 5 * (pollLoop statusAt pingAt).queries ∧
    (∀ k, k < 30 → attemptSucceeds statusAt pingAt k = true →
      (∀ j, j < k → attemptSucceeds statusAt pingAt j = false) →
      pollLoop statusAt pingAt = ⟨k, true, k + 1, 5 * (k + 1)⟩) := by
  refine ⟨pollGo_queries_le _ 30 0, pollGo_sleep_eq _ 30 0, ?_⟩
  intro k hk hs hmin
  have := pollGo_first_success (attemptSucceeds statusAt pingAt) 30 0 k hk
    (by simpa using hs) (by simpa using hmin)
  simpa using this

/-- Witness for C6: the first success at attempt 2 stops the loop after 3
queries and 15 seconds of sleeping. -/
theorem poll_loop_spec_witness :
    pollLoop (fun k => if k == 2 then some "running" else none) (fun _ => true) =
      ⟨2, true, 3, 15⟩ :=
  (poll_loop_spec (fun k => if k == 2 then some "running" else none) (fun _ => true)).2.2
    2 (by decide) (by decide) (by decide)

/-- C7 (amended): the limited-connectivity warning (`if attempt >= 29`,
line 486) is emitted exactly when no polling attempt among the first 29
(indices 0..28) succeeds.  In particular a success on the final attempt
(index 29) leaves `attempt = 29` after the `break` and still emits the
warning. -/
theorem poll_warning_iff (statusAt : Nat → Option String) (pingAt : Nat → Bool) :
    pollWarning (pollLoop statusAt pingAt) = true ↔
      ∀ k, k < 29 → attemptSucceeds statusAt pingAt k = false := by
  constructor
  · intro hw
    by_contra hnot
    push_neg at hnot
    obtain ⟨k, hk29, hks⟩ := hnot
    have hks' : attemptSucceeds statusAt pingAt k = true := by
      simpa using hks
    have hex : ∃ n, attemptSucceeds statusAt pingAt n = true := ⟨k, hks'⟩
    have hk0 : attemptSucceeds statusAt pingAt (Nat.find hex) = true := Nat.find_spec hex
    have hmin : ∀ j, j < Nat.find hex → attemptSucceeds statusAt pingAt j = false := by
      intro j hj
      have := Nat.find_min hex hj
      simpa using this
    have hk0le : Nat.find hex ≤ k := Nat.find_min' hex hks'
    have hloop := (poll_loop_spec statusAt pingAt).2.2 (Nat.find hex) (by omega) hk0 hmin
    rw [hloop] at hw
    have : 29 ≤ Nat.find hex := by simpa [pollWarning] using hw
    omega
  · intro h
    by_cases h29 : attemptSucceeds statusAt pingAt 29 = true
    · have hloop := (poll_loop_spec statusAt pingAt).2.2 29 (by omega) h29 h
      rw [hloop]
      simp [pollWarning]
    · have hall : ∀ j, j < 30 → attemptSucceeds statusAt pingAt (0 + j) = false := by
        intro j hj
        rcases Nat.lt_or_ge j 29 with h' | h'
        · simpa using h j h'
        · have hj29 : j = 29 := by omega
          subst hj29
          simpa using Bool.not_eq_true _ ▸ h29
      have := pollGo_no_success (attemptSucceeds statusAt pingAt) 30 0 hall
      unfold pollLoop
      rw [this]
      simp [pollWarning]

/-- Witness for C7 (amended): with no attempt ever succeeding, the warning is
emitted. -/
theorem poll_warning_iff_witness :
    pollWarning (pollLoop (fun _ => none) (fun _ => true)) = true :=
  (poll_warning_iff (fun _ => none) (fun _ => true)).mpr (by decide)

/-- A status environment in which the container first reports `"running"` at
the very last polling attempt (index 29). -/
def lateStatus : Nat → Option String := fun k => if k == 29 then some "running" else none

/-- Counterexample to C7 as stated: when success first holds at attempt 29,
the loop is left via `break` with the success condition holding, yet the
limited-connectivity warning is still emitted (so the warning is not emitted
"exactly when the 30 attempts are exhausted without the success condition
ever holding"). -/
theorem poll_warning_not_exactly_on_exhaustion :
    (pollLoop lateStatus (fun _ => true)).broke = true ∧
    attemptSucceeds lateStatus (fun _ => true) 29 = true ∧
    pollWarning (pollLoop lateStatus (fun _ => true)) = true := by
  decide

/-! ### The generated install script (`create_odoo_install_script`, lines 104-242)

The three f-string templates are transcribed as lists of segments
(literal chunks and interpolated variables) concatenated by `strCat`; the
literal chunks are split exactly at the section commands the claims talk
about, so the concatenation of each list is character-for-character the
Python template. -/

/-- Concatenation of a list of string segments (an f-string template). -/
def strCat : List String → String
  | [] => ""
  | x :: xs => x ++ strCat xs

/-- `', '.join([f'"{m}"' for m in custom_modules])` (line 106). -/
def customModulesStr (custom_modules : List String) : String :=
  String.intercalate ", " (custom_modules.map (fun m => "\"" ++ m ++ "\""))

/-- The `addons_path` value (line 108): the custom-addons component is present
exactly when custom modules are present. -/
def addonsPathFor (has_custom_modules : Bool) : String :=
  if has_custom_modules then "/opt/odoo18/addons,/opt/odoo18/custom_addons"
  else "/opt/odoo18/addons"
def scriptHead (odoo_version db_pass odoo_user : String) : String :=
  strCat [
    "#!/bin/bash\n# Script de instalación de Odoo ",
    odoo_version,
    " - C3i Servicios Informáticos\ninfo() \x7b echo \"[INFO] $1\"; \x7d\nsuccess() \x7b echo \"[SUCCESS] $1\"; \x7d\nwarning() \x7b echo \"[WARNING] $1\"; \x7d\nerror() \x7b echo \"[ERROR] $1\"; \x7d\nprogress() \x7b echo \"[PROGRESS] $1\"; \x7d\n\n# Actualizar sistema\ninfo \"Actualizando sistema...\"\n",
    "apt-get update",
    " && DEBIAN_FRONTEND=noninteractive apt-get upgrade -y\nsuccess \"Sistema actualizado\"\n\n# Instalar requisitos\ninfo \"Instalando dependencias...\"\nprogress \"Instalando paquetes del sistema (1/5)\"\n",
    "apt-get install -y openssh-server",
    " fail2ban python3-pip python3-dev libxml2-dev libxslt1-dev zlib1g-dev libsasl2-dev\nprogress \"Instalando bibliotecas de desarrollo (2/5)\"\napt-get install -y libldap2-dev build-essential libssl-dev libffi-dev default-libmysqlclient-dev libjpeg-dev libpq-dev\nprogress \"Instalando bibliotecas de procesamiento de imágenes (3/5)\"\napt-get install -y libjpeg8-dev liblcms2-dev libblas-dev libatlas-base-dev\nprogress \"Instalando Node.js y npm (4/5)\"\napt-get install -y npm git postgresql python3-venv\nprogress \"Configurando fail2ban y Node.js (5/5)\"\nsystemctl enable fail2ban\nln -sf /usr/bin/nodejs /usr/bin/node\nnpm install -g less less-plugin-clean-css\napt-get install -y node-less\nsuccess \"Dependencias instaladas\"\n\n# Configurar PostgreSQL\ninfo \"Configurando PostgreSQL...\"\nsu - postgres -c \"",
    "createuser",
    " --createdb --username postgres --no-createrole --superuser --pwprompt ",
    odoo_user,
    " << EOF\n",
    db_pass,
    "\n",
    db_pass,
    "\nEOF\"\nsuccess \"PostgreSQL configurado\"\n\n# Crear usuario de Odoo\ninfo \"Creando usuario del sistema para Odoo...\"\nadduser --system --home=/opt/odoo18 --group ",
    odoo_user,
    "\nsuccess \"Usuario del sistema creado\"\n\n# Clonar Odoo\ninfo \"Clonando repositorio de Odoo...\"\nprogress \"Descargando código fuente de Odoo (esto puede tardar varios minutos)...\"\nsu - ",
    odoo_user,
    " -s /bin/bash -c \"",
    "git clone",
    " https://www.github.com/odoo/odoo --depth 1 --branch ",
    odoo_version,
    " --single-branch .\"\nsuccess \"Repositorio de Odoo clonado\"\n\n# Instalar dependencias de Python\ninfo \"Instalando dependencias de Python...\"\n",
    "python3 -m venv",
    " /opt/odoo18/venv\ncd /opt/odoo18/\nprogress \"Instalando requisitos de Python en entorno virtual (esto puede tardar varios minutos)...\"\n/opt/odoo18/venv/bin/pip install wheel\n/opt/odoo18/venv/bin/pip install -r requirements.txt\nsuccess \"Dependencias de Python instaladas\"\n\n# Instalar ",
    "wkhtmltopdf",
    "\ninfo \"Instalando wkhtmltopdf...\"\napt-get install -y xfonts-75dpi xfonts-base\ncd /tmp\nprogress \"Descargando wkhtmltopdf...\"\nwget -q https://github.com/wkhtmltopdf/packaging/releases/download/0.12.6.1-2/wkhtmltox_0.12.6.1-2.jammy_amd64.deb\nprogress \"Instalando paquete wkhtmltopdf...\"\ndpkg -i wkhtmltox_0.12.6.1-2.jammy_amd64.deb || apt-get install -f -y\nsuccess \"wkhtmltopdf instalado\"\n\n"
  ]

def customBlock (odoo_user mods : String) : String :=
  strCat [
    "\n# Instalar módulos personalizados\ninfo \"Instalando módulos personalizados...\"\n",
    "mkdir -p /opt/odoo18/custom_addons",
    "\nchown ",
    odoo_user,
    ": /opt/odoo18/custom_addons\n\n# Copiar módulos personalizados a Odoo\nfor module in ",
    mods,
    "; do\n    progress \"Instalando módulo: $module\"\n    ",
    "cp -r /tmp/custom_modules",
    "/$module /opt/odoo18/custom_addons/\ndone\n\nchown -R ",
    odoo_user,
    ": /opt/odoo18/custom_addons/\nsuccess \"Módulos personalizados instalados\"\n"
  ]

def scriptTail (odoo_version db_pass odoo_user addons_path : String) : String :=
  strCat [
    "\n\n# Configurar Odoo\ninfo \"Configurando Odoo...\"\nmkdir -p /var/log/odoo\nprogress \"Creando archivo de configuración...\"\n",
    "cat > /etc/odoo18.conf",
    " << EOL\n[options]\n; Esta es la contraseña que permite operaciones en la base de datos:\n; admin_passwd = admin\ndb_host = localhost\ndb_port = 5432\ndb_user = ",
    odoo_user,
    "\ndb_password = ",
    db_pass,
    "\n",
    "addons_path = ",
    addons_path,
    "\ndefault_productivity_apps = True\nlogfile = /var/log/odoo/odoo18.log\nEOL\n\nchown ",
    odoo_user,
    ": /etc/odoo18.conf\nchmod 640 /etc/odoo18.conf\nchown ",
    odoo_user,
    ":root /var/log/odoo\nprogress \"Creando servicio systemd...\"\n\n# Configurar systemd\n",
    "cat > /etc/systemd/system/odoo18.service",
    " << EOL\n[Unit]\nDescription=Odoo ",
    odoo_version,
    "\nAfter=network.target postgresql.service\n\n[Service]\nType=simple\nUser=",
    odoo_user,
    "\nExecStart=/opt/odoo18/venv/bin/python3 /opt/odoo18/odoo-bin -c /etc/odoo18.conf\n\n[Install]\nWantedBy=default.target\nEOL\n\nchmod 755 /etc/systemd/system/odoo18.service\nprogress \"Recargando systemd e iniciando servicio de Odoo...\"\nsystemctl daemon-reload\n",
    "systemctl start odoo18.service",
    "\nsystemctl enable odoo18.service\n\nsuccess \"Instalación de Odoo ",
    odoo_version,
    " completada\"\n"
  ]

def netplan_config (ip gw dns : String) : String :=
  strCat [
    "# Configuración de red para IP pública\nnetwork:\n  ethernets:\n    eth0:\n      ",
    "addresses: [\x27",
    ip,
    "/32\x27]",
    "\n      ",
    "gateway4: ",
    gw,
    "\n      nameservers:\n        ",
    "addresses: [",
    dns,
    "]",
    "\n      routes:\n      - scope: link\n        ",
    "to: ",
    gw,
    "/32",
    "\n        via: 0.0.0.0\n  version: 2\n"
  ]

/-- Embedding of `create_odoo_install_script` (lines 104-240): head template,
then the custom-modules block exactly when `len(custom_modules) > 0`, then the
tail template with the computed `addons_path`. -/
def create_odoo_install_script (odoo_version db_pass odoo_user : String)
    (custom_modules : List String) : String :=
  scriptHead odoo_version db_pass odoo_user ++
    ((if 0 < custom_modules.length then
        customBlock odoo_user (customModulesStr custom_modules)
      else "") ++
      scriptTail odoo_version db_pass odoo_user
        (addonsPathFor (decide (0 < custom_modules.length))))

theorem strContains_here2 (a b t : String) :
    strContains (a ++ (b ++ t)) (a ++ b) = true := by
  have h := strContains_here (a ++ b) t
  rwa [strAppend_assoc] at h

theorem strContains_here3 (a x b t : String) :
    strContains (a ++ (x ++ (b ++ t))) (a ++ (x ++ b)) = true := by
  have h := strContains_here (a ++ (x ++ b)) t
  have he : (a ++ (x ++ b)) ++ t = a ++ (x ++ (b ++ t)) := by
    apply string_eq_of_data
    simp [String.data_append, List.append_assoc]
  rwa [he] at h

/-- The fixed section sequence of the install script without the optional
custom-module block. -/
def installSections : List String :=
  ["apt-get update", "apt-get install -y openssh-server", "createuser", "git clone",
   "python3 -m venv", "wkhtmltopdf", "cat > /etc/odoo18.conf",
   "cat > /etc/systemd/system/odoo18.service", "systemctl start odoo18.service"]

/-- The fixed section sequence with the custom-module copy inserted in its
place. -/
def installSectionsWithModules : List String :=
  ["apt-get update", "apt-get install -y openssh-server", "createuser", "git clone",
   "python3 -m venv", "wkhtmltopdf", "cp -r /tmp/custom_modules", "cat > /etc/odoo18.conf",
   "cat > /etc/systemd/system/odoo18.service", "systemctl start odoo18.service"]


set_option maxRecDepth 100000 in
/-- C2: the generated install script contains the custom-module installation
block (keyed by its `mkdir -p /opt/odoo18/custom_addons` command) iff the
custom-module list is non-empty, and the `addons_path` line of the emitted
configuration carries the `/opt/odoo18/custom_addons` component iff the list
is non-empty (stated at the script's default version and credentials, over
which the claim does not quantify). -/
theorem install_script_custom_modules_iff (custom_modules : List String) :
    (strContains (create_odoo_install_script "18.0" "admin2025" "odoo18" custom_modules)
        "mkdir -p /opt/odoo18/custom_addons" = true ↔ custom_modules ≠ []) ∧
    (strContains (create_odoo_install_script "18.0" "admin2025" "odoo18" custom_modules)
        "addons_path = /opt/odoo18/addons,/opt/odoo18/custom_addons" = true ↔
      custom_modules ≠ []) := by
  cases custom_modules with
  | nil =>
      refine ⟨⟨fun h => absurd h (by decide), fun h => absurd rfl h⟩,
        ⟨fun h => absurd h (by decide), fun h => absurd rfl h⟩⟩
  | cons m ms =>
      have hlen : 0 < (m :: ms).length := Nat.succ_pos ms.length
      constructor
      · refine ⟨fun _ => by simp, fun _ => ?_⟩
        simp only [create_odoo_install_script, if_pos hlen, decide_eq_true hlen]
        rw [show addonsPathFor true = "/opt/odoo18/addons,/opt/odoo18/custom_addons" from rfl]
        simp only [scriptHead, customBlock, scriptTail, strCat, strAppend_assoc]
        apply strContains_append_right
        apply strContains_append_right
        apply strContains_append_right
        apply strContains_append_right
        apply strContains_append_right
        apply strContains_append_right
        apply strContains_append_right
        apply strContains_append_right
        apply strContains_append_right
        apply strContains_append_right
        apply strContains_append_right
        apply strContains_append_right
        apply strContains_append_right
        apply strContains_append_right
        apply strContains_append_right
        apply strContains_append_right
        apply strContains_append_right
        apply strContains_append_right
        apply strContains_append_right
        apply strContains_append_right
        apply strContains_append_right
        apply strContains_append_right
        apply strContains_append_right
        apply strContains_append_right
        apply strContains_append_right
        apply strContains_append_right
        apply strContains_append_right
        apply strContains_append_right
        apply strContains_append_right
        exact strContains_here _ _
      · refine ⟨fun _ => by simp, fun _ => ?_⟩
        rw [show ("addons_path = /opt/odoo18/addons,/opt/odoo18/custom_addons" : String) =
          "addons_path = " ++ "/opt/odoo18/addons,/opt/odoo18/custom_addons" from by decide]
        simp only [create_odoo_install_script, if_pos hlen, decide_eq_true hlen]
        rw [show addonsPathFor true = "/opt/odoo18/addons,/opt/odoo18/custom_addons" from rfl]
        simp only [scriptHead, customBlock, scriptTail, strCat, strAppend_assoc]
        apply strContains_append_right
        apply strContains_append_right
        apply strContains_append_right
        apply strContains_append_right
        apply strContains_append_right
        apply strContains_append_right
        apply strContains_append_right
        apply strContains_append_right
        apply strContains_append_right
        apply strContains_append_right
        apply strContains_append_right
        apply strContains_append_right
        apply strContains_append_right
        apply strContains_append_right
        apply strContains_append_right
        apply strContains_append_right
        apply strContains_append_right
        apply strContains_append_right
        apply strContains_append_right
        apply strContains_append_right
        apply strContains_append_right
        apply strContains_append_right
        apply strContains_append_right
        apply strContains_append_right
        apply strContains_append_right
        apply strContains_append_right
        apply strContains_append_right
        apply strContains_append_right
        apply strContains_append_right
        apply strContains_append_right
        apply strContains_append_right
        apply strContains_append_right
        apply strContains_append_right
        apply strContains_append_right
        apply strContains_append_right
        apply strContains_append_right
        apply strContains_append_right
        apply strContains_append_right
        apply strContains_append_right
        apply strContains_append_right
        apply strContains_append_right
        apply strContains_append_right
        apply strContains_append_right
        apply strContains_append_right
        apply strContains_append_right
        apply strContains_append_right
        apply strContains_append_right
        exact strContains_here2 _ _ _

/-- Witness for C2: the block marker is present with one module and absent
with none. -/
theorem install_script_custom_modules_iff_witness :
    strContains (create_odoo_install_script "18.0" "admin2025" "odoo18" ["sample_mod"])
      "mkdir -p /opt/odoo18/custom_addons" = true ∧
    strContains (create_odoo_install_script "18.0" "admin2025" "odoo18" [])
      "mkdir -p /opt/odoo18/custom_addons" = false := by
  constructor
  · exact (install_script_custom_modules_iff ["sample_mod"]).1.mpr (by simp)
  · rcases hb : strContains (create_odoo_install_script "18.0" "admin2025" "odoo18" [])
      "mkdir -p /opt/odoo18/custom_addons" with _ | _
    · rfl
    · exact absurd ((install_script_custom_modules_iff []).1.mp hb) (by simp)


set_option maxRecDepth 100000 in
/-- C8: for every input, the generated install script runs through its
sections in the fixed order (system update, dependency install, database role
creation, source checkout, virtualenv setup, wkhtmltopdf install, optional
custom-module copy, configuration and service-unit emission, service start);
the custom-module copy section participates exactly when modules are
supplied. -/
theorem install_script_section_order (odoo_version db_pass odoo_user : String)
    (custom_modules : List String) :
    InOrd installSections
      (create_odoo_install_script odoo_version db_pass odoo_user custom_modules) ∧
    (custom_modules ≠ [] →
      InOrd installSectionsWithModules
        (create_odoo_install_script odoo_version db_pass odoo_user custom_modules)) := by
  cases custom_modules with
  | nil =>
      constructor
      · rw [show create_odoo_install_script odoo_version db_pass odoo_user [] =
            scriptHead odoo_version db_pass odoo_user ++
              ("" ++ scriptTail odoo_version db_pass odoo_user (addonsPathFor false)) from rfl]
        simp only [scriptHead, scriptTail, strCat, strAppend_assoc, installSections]
        apply InOrd.keep
        apply InOrd.keep
        apply InOrd.keep
        apply InOrd.found
        apply InOrd.keep
        apply InOrd.found
        apply InOrd.keep
        apply InOrd.found
        apply InOrd.keep
        apply InOrd.keep
        apply InOrd.keep
        apply InOrd.keep
        apply InOrd.keep
        apply InOrd.keep
        apply InOrd.keep
        apply InOrd.keep
        apply InOrd.keep
        apply InOrd.keep
        apply InOrd.keep
        apply InOrd.found
        apply InOrd.keep
        apply InOrd.keep
        apply InOrd.keep
        apply InOrd.found
        apply InOrd.keep
        apply InOrd.found
        apply InOrd.keep
        apply InOrd.keep
        apply InOrd.keep
        apply InOrd.keep
        apply InOrd.found
        apply InOrd.keep
        apply InOrd.keep
        apply InOrd.keep
        apply InOrd.keep
        apply InOrd.keep
        apply InOrd.keep
        apply InOrd.keep
        apply InOrd.keep
        apply InOrd.keep
        apply InOrd.keep
        apply InOrd.keep
        apply InOrd.keep
        apply InOrd.found
        apply InOrd.keep
        apply InOrd.keep
        apply InOrd.keep
        apply InOrd.keep
        apply InOrd.keep
        apply InOrd.found
        exact InOrd.nil _
      · intro h
        exact absurd rfl h
  | cons m ms =>
      have hlen : 0 < (m :: ms).length := Nat.succ_pos ms.length
      constructor
      · simp only [create_odoo_install_script, if_pos hlen, decide_eq_true hlen]
        rw [show addonsPathFor true = "/opt/odoo18/addons,/opt/odoo18/custom_addons" from rfl]
        simp only [scriptHead, customBlock, scriptTail, strCat, strAppend_assoc,
          installSections]
        apply InOrd.keep
        apply InOrd.keep
        apply InOrd.keep
        apply InOrd.found
        apply InOrd.keep
        apply InOrd.found
        apply InOrd.keep
        apply InOrd.found
        apply InOrd.keep
        apply InOrd.keep
        apply InOrd.keep
        apply InOrd.keep
        apply InOrd.keep
        apply InOrd.keep
        apply InOrd.keep
        apply InOrd.keep
        apply InOrd.keep
        apply InOrd.keep
        apply InOrd.keep
        apply InOrd.found
        apply InOrd.keep
        apply InOrd.keep
        apply InOrd.keep
        apply InOrd.found
        apply InOrd.keep
        apply InOrd.found
        apply InOrd.keep
        apply InOrd.keep
        apply InOrd.keep
        apply InOrd.keep
        apply InOrd.keep
        apply InOrd.keep
        apply InOrd.keep
        apply InOrd.keep
        apply InOrd.keep
        apply InOrd.keep
        apply InOrd.keep
        apply InOrd.keep
        apply InOrd.keep
        apply InOrd.keep
        apply InOrd.keep
        apply InOrd.found
        apply InOrd.keep
        apply InOrd.keep
        apply InOrd.keep
        apply InOrd.keep
        apply InOrd.keep
        apply InOrd.keep
        apply InOrd.keep
        apply InOrd.keep
        apply InOrd.keep
        apply InOrd.keep
        apply InOrd.keep
        apply InOrd.keep
        apply InOrd.found
        apply InOrd.keep
        apply InOrd.keep
        apply InOrd.keep
        apply InOrd.keep
        apply InOrd.keep
        apply InOrd.found
        exact InOrd.nil _
      · intro _
        simp only [create_odoo_install_script, if_pos hlen, decide_eq_true hlen]
        rw [show addonsPathFor true = "/opt/odoo18/addons,/opt/odoo18/custom_addons" from rfl]
        simp only [scriptHead, customBlock, scriptTail, strCat, strAppend_assoc,
          installSectionsWithModules]
        apply InOrd.keep
        apply InOrd.keep
        apply InOrd.keep
        apply InOrd.found
        apply InOrd.keep
        apply InOrd.found
        apply InOrd.keep
        apply InOrd.found
        apply InOrd.keep
        apply InOrd.keep
        apply InOrd.keep
        apply InOrd.keep
        apply InOrd.keep
        apply InOrd.keep
        apply InOrd.keep
        apply InOrd.keep
        apply InOrd.keep
        apply InOrd.keep
        apply InOrd.keep
        apply InOrd.found
        apply InOrd.keep
        apply InOrd.keep
        apply InOrd.keep
        apply InOrd.found
        apply InOrd.keep
        apply InOrd.found
        apply InOrd.keep
        apply InOrd.keep
        apply InOrd.keep
        apply InOrd.keep
        apply InOrd.keep
        apply InOrd.keep
        apply InOrd.keep
        apply InOrd.keep
        apply InOrd.keep
        apply InOrd.found
        apply InOrd.keep
        apply InOrd.keep
        apply InOrd.keep
        apply InOrd.keep
        apply InOrd.keep
        apply InOrd.found
        apply InOrd.keep
        apply InOrd.keep
        apply InOrd.keep
        apply InOrd.keep
        apply InOrd.keep
        apply InOrd.keep
        apply InOrd.keep
        apply InOrd.keep
        apply InOrd.keep
        apply InOrd.keep
        apply InOrd.keep
        apply InOrd.keep
        apply InOrd.found
        apply InOrd.keep
        apply InOrd.keep
        apply InOrd.keep
        apply InOrd.keep
        apply InOrd.keep
        apply InOrd.found
        exact InOrd.nil _

/-- Witness for C8: the full ordered section list, custom-module copy
included, for a one-module input. -/
theorem install_script_section_order_witness :
    InOrd installSectionsWithModules
      (create_odoo_install_script "18.0" "admin2025" "odoo18" ["sample_mod"]) :=
  (install_script_section_order "18.0" "admin2025" "odoo18" ["sample_mod"]).2 (by simp)


/-- C5: the generated netplan configuration embeds the literal operator
values: the IP in the `addresses` entry with `/32`, the gateway both as
`gateway4` and as the `/32` link-scope route target, and the DNS string in
the nameservers `addresses` list. -/
theorem netplan_config_embeds_values (ip gw dns : String) :
    strContains (netplan_config ip gw dns)
      ("addresses: [\x27" ++ (ip ++ "/32\x27]")) = true ∧
    strContains (netplan_config ip gw dns) ("gateway4: " ++ gw) = true ∧
    strContains (netplan_config ip gw dns) ("to: " ++ (gw ++ "/32")) = true ∧
    strContains (netplan_config ip gw dns) ("addresses: [" ++ (dns ++ "]")) = true := by
  refine ⟨?_, ?_, ?_, ?_⟩
  · simp only [netplan_config, strCat, strAppend_assoc]
    apply strContains_append_right
    exact strContains_here3 _ _ _ _
  · simp only [netplan_config, strCat, strAppend_assoc]
    apply strContains_append_right
    apply strContains_append_right
    apply strContains_append_right
    apply strContains_append_right
    apply strContains_append_right
    exact strContains_here2 _ _ _
  · simp only [netplan_config, strCat, strAppend_assoc]
    apply strContains_append_right
    apply strContains_append_right
    apply strContains_append_right
    apply strContains_append_right
    apply strContains_append_right
    apply strContains_append_right
    apply strContains_append_right
    apply strContains_append_right
    apply strContains_append_right
    apply strContains_append_right
    apply strContains_append_right
    apply strContains_append_right
    exact strContains_here3 _ _ _ _
  · simp only [netplan_config, strCat, strAppend_assoc]
    apply strContains_append_right
    apply strContains_append_right
    apply strContains_append_right
    apply strContains_append_right
    apply strContains_append_right
    apply strContains_append_right
    apply strContains_append_right
    apply strContains_append_right
    exact strContains_here3 _ _ _ _
